import Mathlib

/-!
# Verification of the inventory-tracker core against its specification

Shallow embedding of the identifier-generation subsystem, validation rules,
ownership-scoped repository operations and stats aggregation of the
inventory-tracking application (Express routes `routes/items.js`, Mongoose
model `models/Inventory.js`, and the React create form), together with
theorems settling the specification claims.

Strings are modelled with Lean `String` (character-for-character faithful for
the ASCII data the application handles), money with `Rat`, timestamps with
`Nat` (epoch milliseconds), and the document store with a `List` of records.
-/

/-- JavaScript `s.padStart(3, '0')`: pad with zeroes on the left up to a
minimum width of 3; strings already of length ≥ 3 are returned unchanged
(padding is a minimum width, not a truncation). -/
def padStart3 (s : String) : String :=
  if 3 ≤ s.length then s else String.mk (List.replicate (3 - s.length) '0') ++ s

/-- JavaScript `s.slice(-k)`: the last `k` characters of `s` (the whole
string when it is shorter than `k`). -/
def sliceLast (k : Nat) (s : String) : String :=
  String.mk (s.data.drop (s.data.length - k))

/-- Decimal value of a run of digit characters, as read by
`parseInt(ds, 10)` on a digit-only string. -/
def digitsVal (ds : List Char) : Nat :=
  ds.foldl (fun a c => 10 * a + (c.toNat - '0'.toNat)) 0

/-- JavaScript `String.prototype.toUpperCase` (ASCII fragment). -/
def strUpper (s : String) : String :=
  String.mk (s.data.map Char.toUpper)

/-- JavaScript `String.prototype.trim`: drop whitespace from both ends. -/
def strTrim (s : String) : String :=
  String.mk (((s.data.dropWhile Char.isWhitespace).reverse.dropWhile
    Char.isWhitespace).reverse)

/-- One inventory document as stored by the Mongoose `InventorySchema`:
`_id` (here `docId`), `inventoryId` (the display identifier), the item
fields, `lastUpdated` and the owning `userId`. -/
structure Item where
  docId : String
  inventoryId : String
  productName : String
  category : String
  supplier : String
  stock : String
  costUnit : Rat
  warehouse : String
  lastUpdated : Nat
  userId : String
deriving DecidableEq

/-- Error outcomes surfaced by the route handlers, identified by the HTTP
status and message family they map to. -/
inductive ApiErr where
  | notFound
  | forbidden
  | invalidArgument
  | validationFailed
  | serviceUnavailable
deriving DecidableEq

/-- The store: the list of inventory documents. -/
abbrev Store := List Item

/-- Lexicographic comparison of character lists by code point, the order in
which MongoDB sorts an ASCII string field. -/
def lexLeB : List Char → List Char → Bool
  | [], _ => true
  | _ :: _, [] => false
  | a :: as, b :: bs =>
    if a.toNat < b.toNat then true
    else if b.toNat < a.toNat then false
    else lexLeB as bs

/-- Lexicographic order on strings, by code point. -/
def strLeB (a b : String) : Bool :=
  lexLeB a.data b.data

/-- Binary maximum in the string (byte-lexicographic) order MongoDB uses to
sort a string field. -/
def maxStep (a b : String) : String :=
  if strLeB a b then b else a

/-- The lexicographically greatest string in a list, if any: the
`inventoryId` returned by `findOne({userId}).sort({inventoryId: -1})`,
which sorts the string field in descending order and takes the first
document. -/
def maxId : List String → Option String
  | [] => none
  | x :: xs => some (xs.foldl maxStep x)

/-- The regex search `s.match(/INV-(\d+)/)`: find the first occurrence of
the literal `INV-` followed by at least one decimal digit, and return the
value of the maximal digit run captured there. -/
def invMatchAt : List Char → Option Nat
  | 'I' :: 'N' :: 'V' :: '-' :: rest =>
    let ds := rest.takeWhile Char.isDigit
    if ds.isEmpty then none else some (digitsVal ds)
  | _ => none

/-- Unanchored scan for `/INV-(\d+)/` over the characters of the subject
string (first match wins, as in JavaScript `String.prototype.match`). -/
def findInvNumber : List Char → Option Nat
  | [] => none
  | c :: cs =>
    match invMatchAt (c :: cs) with
    | some n => some n
    | none => findInvNumber cs

/-- The display identifiers of the owner's stored items. -/
def ownerIds (store : Store) (u : String) : List String :=
  (store.filter (fun it => it.userId = u)).map (fun it => it.inventoryId)

/-- The `nextNumber` computed by `generateInventoryId` in `routes/items.js`:
fetch the owner's item with the greatest `inventoryId` in descending string
order, extract its number with `/INV-(\d+)/` and add one, defaulting to 1
when there is no item, the stored identifier is empty (falsy), or the regex
does not match. -/
def generateInventoryIdNum (store : Store) (u : String) : Nat :=
  match maxId (ownerIds store u) with
  | none => 1
  | some lastId =>
    if lastId = "" then 1
    else
      match findInvNumber lastId.data with
      | some n => n + 1
      | none => 1

/-- `generateInventoryId` from `routes/items.js` (success path): render
`INV-` followed by the next number padded to at least 3 digits. -/
def generateInventoryId (store : Store) (u : String) : String :=
  "INV-" ++ padStart3 (Nat.repr (generateInventoryIdNum store u))

/-- The identifier formatter shared by both generators: render a sequence
number as `INV-` followed by its decimal digits zero-padded to minimum
width 3 (`nextNumber.toString().padStart(3, '0')`). -/
def formatInventoryId (n : Nat) : String :=
  "INV-" ++ padStart3 (Nat.repr n)

/-- C6: the identifier formatter renders `INV-` followed by the number
zero-padded to a minimum width of 3 digits, with no truncation above 3
digits: `format 1 = "INV-001"`, `format 25 = "INV-025"`,
`format 999 = "INV-999"`, `format 1000 = "INV-1000"`, and in general a
number whose decimal rendering already has at least 3 digits is emitted
unpadded and untruncated after `INV-`. -/
theorem c6_formatter_pads_to_min_width_3 :
    formatInventoryId 1 = "INV-001" ∧
    formatInventoryId 25 = "INV-025" ∧
    formatInventoryId 999 = "INV-999" ∧
    formatInventoryId 1000 = "INV-1000" ∧
    (∀ n : Nat, 3 ≤ (Nat.repr n).length →
      formatInventoryId n = "INV-" ++ Nat.repr n) := by
  refine ⟨by decide, by decide, by decide, by decide, ?_⟩
  intro n h
  simp [formatInventoryId, padStart3, h]

/-- Witness for C6 at the concrete input 1000, whose decimal rendering has
4 digits and is not truncated. -/
theorem c6_formatter_witness :
    3 ≤ (Nat.repr 1000).length ∧ formatInventoryId 1000 = "INV-" ++ Nat.repr 1000 :=
  ⟨by decide, c6_formatter_pads_to_min_width_3.2.2.2.2 1000 (by decide)⟩

/-- The counter collection of `models/Inventory.js` (`Counter` model):
documents keyed by `_id` string holding an integer `seq` (schema default 0). -/
abbrev Counters := List (String × Nat)

/-- `Counter.findByIdAndUpdate({_id: key}, {$inc: {seq: 1}}, {new: true,
upsert: true})`: add one to the counter stored under `key`, creating it
from the default 0 on first use, and return the post-increment value
together with the updated collection. -/
def counterUpsert (cs : Counters) (key : String) : Nat × Counters :=
  match cs.find? (fun p => p.1 = key) with
  | some p => (p.2 + 1, cs.map (fun q => if q.1 = key then (q.1, p.2 + 1) else q))
  | none => (1, cs ++ [(key, 1)])

/-- The `pre('save')` hook of `models/Inventory.js` (counter version): when
the document reaches save with no `inventoryId` (modelled as the empty
string, the falsy case of `!this.inventoryId`), increment the per-owner
counter `userId_<userId>` and format its value; otherwise leave the
already-assigned identifier and the counters untouched. -/
def preSaveHook (cs : Counters) (u : String) (invId : String) : String × Counters :=
  if invId = "" then
    let r := counterUpsert cs ("userId_" ++ u)
    ("INV-" ++ padStart3 (Nat.repr r.1), r.2)
  else (invId, cs)

/-- The display identifier stored by a successful create: the route first
assigns `inventoryId := generateInventoryId(userId)` and then saves, so the
pre-save hook runs on an already-populated identifier. -/
def createdDisplayId (store : Store) (cs : Counters) (u : String) : String :=
  (preSaveHook cs u (generateInventoryId store u)).1

/-- The create route (`router.post('/')`) success path: generate the
identifier from the scan, build the document (warehouse uppercased, stock
defaulted by the caller), run the pre-save hook, append to the store.
Returns the new store, the updated counters and the assigned identifier. -/
def createOp (store : Store) (cs : Counters) (u : String) (docId : String)
    (productName category supplier stock : String) (costUnit : Rat)
    (warehouse : String) (now : Nat) : Store × Counters × String :=
  let gid := generateInventoryId store u
  let hooked := preSaveHook cs u gid
  let it : Item :=
    { docId := docId, inventoryId := hooked.1, productName := productName,
      category := category, supplier := supplier, stock := stock,
      costUnit := costUnit, warehouse := strUpper warehouse,
      lastUpdated := now, userId := u }
  (store ++ [it], hooked.2, hooked.1)

/-- The delete route (`router.delete('/:id')`): `findById`, 404 when the
document is missing, 403 when the caller does not own it, otherwise
`findByIdAndDelete` removes it; on either error the store is unchanged. -/
def deleteOp (store : Store) (u : String) (docId : String) : Store :=
  match store.find? (fun it => it.docId = docId) with
  | none => store
  | some it =>
    if it.userId = u then store.filter (fun x => x.docId ≠ docId) else store

/-- One request in a single-owner run: create a new item (with fixed
non-identifier fields, which the generator never reads) or delete one. -/
inductive RunOp where
  | create (docId : String)
  | delete (docId : String)

/-- State threaded through a run: the store, the counters, and the log of
display identifiers assigned by the successful creations so far. -/
structure RunState where
  store : Store
  counters : Counters
  assigned : List String
deriving DecidableEq

/-- Execute one run request for owner `u`. -/
def runStep (u : String) (st : RunState) : RunOp → RunState
  | .create docId =>
    let r := createOp st.store st.counters u docId "Widget" "Electronics" "Acme"
      "In stock" 1 "WH-1" 0
    { store := r.1, counters := r.2.1, assigned := st.assigned ++ [r.2.2] }
  | .delete docId =>
    { st with store := deleteOp st.store u docId }

/-- Execute a run of creates and deletes for owner `u`, starting from an
empty store and empty counter collection. -/
def execRun (u : String) (ops : List RunOp) : RunState :=
  ops.foldl (runStep u) ⟨[], [], []⟩

/-- The display identifiers assigned over a run, in order. -/
def runLog (u : String) (ops : List RunOp) : List String :=
  (execRun u ops).assigned

/-- The catch branch of `generateInventoryId` in `routes/items.js`: when the
store lookup throws, return the timestamp fallback
`INV-` + `Date.now().toString().slice(-6)`. -/
def generateInventoryIdOnError (now : Nat) : String :=
  "INV-" ++ sliceLast 6 (Nat.repr now)

/-- The catch branch of the counter-based `pre('save')` hook in
`models/Inventory.js`: assign `INV-` + `Date.now().toString().slice(-9)`. -/
def preSaveHookOnError (now : Nat) : String :=
  "INV-" ++ sliceLast 9 (Nat.repr now)

/-- `generateInventoryId` with its try/catch made explicit: when the store
lookup fails the timestamp fallback is returned, and in both cases the
route receives an ordinary identifier string, never an error. -/
def generateInventoryIdE (fail : Bool) (now : Nat) (store : Store)
    (u : String) : Except ApiErr String :=
  if fail then .ok (generateInventoryIdOnError now)
  else .ok (generateInventoryId store u)

theorem inv_append_ne_empty (s : String) : ("INV-" ++ s) ≠ "" := by
  intro h
  have h2 := congrArg String.data h
  simp at h2

theorem generateInventoryId_ne_empty (store : Store) (u : String) :
    generateInventoryId store u ≠ "" :=
  inv_append_ne_empty _

/-- A one-item store for owner `u1` whose greatest stored identifier is
`INV-002`, alongside a counter record for `u1` already at 5. -/
def exScanStore : Store :=
  [{ docId := "d1", inventoryId := "INV-002", productName := "Mouse",
     category := "Electronics", supplier := "Acme", stock := "In stock",
     costUnit := 10, warehouse := "WH-1", lastUpdated := 0, userId := "u1" }]

/-- Counter collection holding `userId_u1` at sequence value 5. -/
def exCounters : Counters := [("userId_u1", 5)]

/-- C1, counterexample: with owner `u1` holding one item `INV-002` and a
counter record at 5, a successful create stores `INV-003` — one more than
the maximum scanned from the owner's items — while the per-owner counter
would yield `INV-006`; the identifier is therefore not derived from the
counter. -/
theorem c1_counterexample_scan_not_counter :
    createdDisplayId exScanStore exCounters "u1" = "INV-003" ∧
    formatInventoryId (counterUpsert exCounters ("userId_" ++ "u1")).1 = "INV-006" ∧
    createdDisplayId exScanStore exCounters "u1" ≠
      formatInventoryId (counterUpsert exCounters ("userId_" ++ "u1")).1 := by
  refine ⟨by decide, by decide, by decide⟩

/-- C1, amended: the identifier used by a successful create is produced by
`generateInventoryId`, which scans the owner's stored items for the
greatest `inventoryId` and adds one; the counter-based pre-save hook is
atomic increment-and-read with upsert-on-first-use, but it only fires when
the document reaches save with no identifier, and the create route always
assigns the scan result first, so a successful create never consults the
counter (the counter collection is left untouched). -/
theorem c1_amended_create_scans_counter_unused (store : Store) (cs : Counters)
    (u : String) :
    createdDisplayId store cs u = generateInventoryId store u ∧
    (preSaveHook cs u (generateInventoryId store u)).2 = cs ∧
    (preSaveHook cs u "").1 =
      formatInventoryId (counterUpsert cs ("userId_" ++ u)).1 := by
  have h := generateInventoryId_ne_empty store u
  refine ⟨?_, ?_, ?_⟩ <;>
    simp [createdDisplayId, preSaveHook, h, formatInventoryId]

/-- C2, counterexample: when the store lookup errors during identifier
generation at time 1700000123456 ms, the route does not surface an error:
it succeeds with the wall-clock-derived identifier `INV-123456` (the last
six digits of the timestamp). -/
theorem c2_counterexample_timestamp_fallback :
    generateInventoryIdE true 1700000123456 [] "u1" =
      .ok (generateInventoryIdOnError 1700000123456) ∧
    generateInventoryIdOnError 1700000123456 = "INV-123456" := by
  refine ⟨rfl, by decide⟩

/-- C2, amended: when identifier generation fails, the allocator does not
fail closed — the route's generator returns an ordinary (ok) identifier
built from the last 6 digits of the wall-clock milliseconds, and the
model's pre-save hook from the last 9 digits; this fallback is not
injective (two distinct times one million milliseconds apart yield the
same identifier), which is exactly the collision hazard. -/
theorem c2_amended_fallback_is_wall_clock :
    (∀ (now : Nat) (store : Store) (u : String),
      generateInventoryIdE true now store u =
        .ok ("INV-" ++ sliceLast 6 (Nat.repr now))) ∧
    (∀ now : Nat, preSaveHookOnError now = "INV-" ++ sliceLast 9 (Nat.repr now)) ∧
    ((1700000123456 : Nat) ≠ 1701000123456 ∧
      generateInventoryIdOnError 1700000123456 =
        generateInventoryIdOnError 1701000123456) := by
  refine ⟨fun now store u => rfl, fun now => rfl, by decide, by decide⟩

/-- C4, counterexample: for one owner the run create `a`, create `b`,
delete `b`, create `c` (from empty store and counters) assigns the
identifiers `INV-001`, `INV-002`, `INV-002`: deleting the item with the
highest number causes the next creation to receive a number that was
previously assigned, so the assigned log is not duplicate-free. -/
theorem c4_counterexample_number_reuse :
    runLog "u1" [.create "a", .create "b", .delete "b", .create "c"] =
      ["INV-001", "INV-002", "INV-002"] ∧
    ¬ (runLog "u1" [.create "a", .create "b", .delete "b", .create "c"]).Nodup := by
  refine ⟨by decide, by decide⟩

/-- The document built by a run creation, with the fixed non-identifier
fields used by `runStep`. -/
def mkRunItem (docId invId u : String) : Item :=
  { docId := docId, inventoryId := invId, productName := "Widget",
    category := "Electronics", supplier := "Acme", stock := "In stock",
    costUnit := 1, warehouse := strUpper "WH-1", lastUpdated := 0, userId := u }

theorem runStep_create (u : String) (store : Store) (cs : Counters)
    (log : List String) (d : String) :
    runStep u ⟨store, cs, log⟩ (.create d) =
      ⟨store ++ [mkRunItem d (generateInventoryId store u) u], cs,
        log ++ [generateInventoryId store u]⟩ := by
  have h := generateInventoryId_ne_empty store u
  simp [runStep, createOp, preSaveHook, h, mkRunItem]

theorem runStep_delete (u : String) (store : Store) (cs : Counters)
    (log : List String) (d : String) :
    runStep u ⟨store, cs, log⟩ (.delete d) = ⟨deleteOp store u d, cs, log⟩ :=
  rfl

theorem gen_nil (u : String) : generateInventoryId [] u = "INV-001" := by
  have h : generateInventoryIdNum [] u = 1 := rfl
  unfold generateInventoryId
  rw [h]; decide

theorem gen_one (u d : String) :
    generateInventoryId [mkRunItem d "INV-001" u] u = "INV-002" := by
  unfold generateInventoryId generateInventoryIdNum
  rw [show ownerIds [mkRunItem d "INV-001" u] u = ["INV-001"] from by
    simp [ownerIds, mkRunItem]]
  decide

theorem delete_second (u k1 k2 i1 i2 : String) (hk : k1 ≠ k2) :
    deleteOp [mkRunItem k1 i1 u, mkRunItem k2 i2 u] u k2 =
      [mkRunItem k1 i1 u] := by
  simp [deleteOp, mkRunItem, hk]

/-- C4, amended: each creation assigns one plus the number scanned from the
owner's greatest stored display identifier, so deleting the
highest-numbered item does cause reuse: for any owner and any distinct
document keys `k1 ≠ k2`, the run create `k1`, create `k2`, delete `k2`,
create `k3` assigns `INV-001`, `INV-002`, `INV-002` — the number 2 is
assigned twice. A number is only safe from reuse while the
highest-numbered item remains stored. -/
theorem c4_amended_delete_max_reuses_number (u k1 k2 k3 : String)
    (hk : k1 ≠ k2) :
    runLog u [.create k1, .create k2, .delete k2, .create k3] =
      ["INV-001", "INV-002", "INV-002"] := by
  have e1 : runStep u ⟨[], [], []⟩ (.create k1) =
      ⟨[mkRunItem k1 "INV-001" u], [], ["INV-001"]⟩ := by
    rw [runStep_create, gen_nil]; rfl
  have e2 : runStep u ⟨[mkRunItem k1 "INV-001" u], [], ["INV-001"]⟩ (.create k2) =
      ⟨[mkRunItem k1 "INV-001" u, mkRunItem k2 "INV-002" u], [],
        ["INV-001", "INV-002"]⟩ := by
    rw [runStep_create, gen_one]; rfl
  have e3 : runStep u
      ⟨[mkRunItem k1 "INV-001" u, mkRunItem k2 "INV-002" u], [],
        ["INV-001", "INV-002"]⟩ (.delete k2) =
      ⟨[mkRunItem k1 "INV-001" u], [], ["INV-001", "INV-002"]⟩ := by
    rw [runStep_delete, delete_second u k1 k2 _ _ hk]
  have e4 : runStep u ⟨[mkRunItem k1 "INV-001" u], [], ["INV-001", "INV-002"]⟩
      (.create k3) =
      ⟨[mkRunItem k1 "INV-001" u, mkRunItem k3 "INV-002" u], [],
        ["INV-001", "INV-002", "INV-002"]⟩ := by
    rw [runStep_create, gen_one]; rfl
  unfold runLog execRun
  simp only [List.foldl_cons, List.foldl_nil]
  rw [e1, e2, e3, e4]

/-- Witness for the amended C4 at owner `u1` and keys `a`, `b`, `c`. -/
theorem c4_amended_witness :
    runLog "u1" [.create "a", .create "b", .delete "b", .create "c"] =
      ["INV-001", "INV-002", "INV-002"] :=
  c4_amended_delete_max_reuses_number "u1" "a" "b" "c" (by decide)

/-- A PUT request body: each known field optionally present. `inventoryId`
may be supplied by the caller — the route spreads the whole body into the
update document. -/
structure UpdatePatch where
  productName : Option String
  category : Option String
  supplier : Option String
  stock : Option String
  costUnit : Option Rat
  warehouse : Option String
  inventoryId : Option String
deriving DecidableEq

/-- The body handling of `router.put('/:id')`: `updateData` is a spread of
the whole request body, `warehouse` uppercased when present and truthy,
`costUnit` reparsed, `lastUpdated` set to now, and the result applied with
`$set` — every supplied field, `inventoryId` included, overwrites the
stored one. -/
def applyUpdate (it : Item) (p : UpdatePatch) (now : Nat) : Item :=
  { it with
    productName := p.productName.getD it.productName
    category := p.category.getD it.category
    supplier := p.supplier.getD it.supplier
    stock := p.stock.getD it.stock
    costUnit := p.costUnit.getD it.costUnit
    warehouse :=
      match p.warehouse with
      | some w => if w = "" then w else strUpper w
      | none => it.warehouse
    inventoryId := p.inventoryId.getD it.inventoryId
    lastUpdated := now }

/-- The express-validator chain of `router.put('/:id')`: each of the five
checks is `optional()`, so it fires only when the field is present; a
present empty string fails the `not().isEmpty()` checks and a present
negative number fails `isFloat({ min: 0 })`. The accumulated messages are
returned with 400 when non-empty. -/
def validatePut (p : UpdatePatch) : List String :=
  (match p.productName with
   | some s => if s = "" then ["Product name is required"] else []
   | none => []) ++
  (match p.category with
   | some s => if s = "" then ["Category is required"] else []
   | none => []) ++
  (match p.supplier with
   | some s => if s = "" then ["Supplier is required"] else []
   | none => []) ++
  (match p.costUnit with
   | some c => if c < 0 then ["Cost must be a positive number"] else []
   | none => []) ++
  (match p.warehouse with
   | some s => if s = "" then ["Warehouse is required"] else []
   | none => [])

/-- The seven `category` enum values of `InventorySchema`. -/
def categoryValues : List String :=
  ["Accessories", "Electronics", "Furniture", "Printing", "Audio", "Office",
   "Storage"]

/-- The two `stock` enum values of `InventorySchema`. -/
def stockValues : List String :=
  ["In stock", "Out of stock"]

/-- The schema validation run by `findByIdAndUpdate(..., { runValidators:
true })`: update validators run on exactly the paths present in the `$set`
document, so each present field is checked against its `InventorySchema`
rules (`required` fails on an empty string; enum, min/max and maxlength as
declared; `lastUpdated` is a `Date` with no validator). The `warehouse`
value has already been uppercased by the route, which changes neither its
emptiness nor its length, so the check is applied to the supplied value. -/
def runValidatorErrors (p : UpdatePatch) : List String :=
  (match p.inventoryId with
   | some s => if s = "" then ["Path inventoryId is required"] else []
   | none => []) ++
  (match p.productName with
   | some s =>
     if s = "" then ["Product name is required"]
     else if 100 < s.length then ["Product name cannot exceed 100 characters"]
     else []
   | none => []) ++
  (match p.category with
   | some s =>
     if s = "" then ["Category is required"]
     else if s ∈ categoryValues then []
     else ["category is not a valid enum value"]
   | none => []) ++
  (match p.supplier with
   | some s =>
     if s = "" then ["Supplier is required"]
     else if 100 < s.length then ["Supplier name cannot exceed 100 characters"]
     else []
   | none => []) ++
  (match p.stock with
   | some s =>
     if s = "" then ["Stock status is required"]
     else if s ∈ stockValues then []
     else ["stock is not a valid enum value"]
   | none => []) ++
  (match p.costUnit with
   | some c =>
     (if c < 0 then ["Cost cannot be negative"] else []) ++
     (if 1000000 < c then ["Cost cannot exceed $1,000,000"] else [])
   | none => []) ++
  (match p.warehouse with
   | some s =>
     if s = "" then ["Warehouse is required"]
     else if 20 < s.length then ["Warehouse code cannot exceed 20 characters"]
     else []
   | none => [])

/-- The update route in request order: the express-validator gate first
(400 on any message), then `findById` (404 when missing), then the
ownership check (403), then `findByIdAndUpdate` with the prepared `$set`
and `runValidators: true` (a mongoose ValidationError is answered with
400). -/
def updateItem (store : Store) (caller docId : String) (p : UpdatePatch)
    (now : Nat) : Except ApiErr Item :=
  if (validatePut p).isEmpty then
    match store.find? (fun it => it.docId = docId) with
    | none => .error .notFound
    | some it =>
      if it.userId = caller then
        if (runValidatorErrors p).isEmpty then .ok (applyUpdate it p now)
        else .error .validationFailed
      else .error .forbidden
  else .error .validationFailed

/-- A stored item used by the concrete examples below. -/
def baseItem : Item :=
  { docId := "d1", inventoryId := "INV-001", productName := "Desk",
    category := "Furniture", supplier := "Acme", stock := "In stock",
    costUnit := 20, warehouse := "WH-1", lastUpdated := 0, userId := "u1" }

/-- A patch that supplies only `inventoryId`. -/
def idOnlyPatch : UpdatePatch :=
  ⟨none, none, none, none, none, none, some "INV-999"⟩

/-- The all-absent patch. -/
def emptyPatch : UpdatePatch :=
  ⟨none, none, none, none, none, none, none⟩

/-- C3, counterexample: updating the owner's item `d1` (stored displayId
`INV-001`) with a body that supplies `inventoryId: "INV-999"` succeeds and
stores `INV-999` — the update does change the stored displayId when the
patch supplies one. -/
theorem c3_counterexample_patch_overwrites_displayId :
    updateItem [baseItem] "u1" "d1" idOnlyPatch 5 =
      .ok { baseItem with inventoryId := "INV-999", lastUpdated := 5 } ∧
    baseItem.inventoryId ≠ "INV-999" := by
  refine ⟨rfl, by decide⟩

/-- C3, amended: the update route preserves the stored displayId exactly
when the patch does not supply an `inventoryId` field; a supplied
`inventoryId` is `$set` like any other body field. For a patch without
`inventoryId` that passes both the express-validator gate and the schema
validators, an update of an owned item succeeds and leaves `inventoryId`
unchanged. -/
theorem c3_amended_update_preserves_displayId_when_absent (store : Store)
    (caller docId : String) (p : UpdatePatch) (now : Nat)
    (h : p.inventoryId = none)
    (hv : validatePut p = []) (hs : runValidatorErrors p = []) (it : Item)
    (hit : store.find? (fun x => x.docId = docId) = some it)
    (hown : it.userId = caller) :
    updateItem store caller docId p now = .ok (applyUpdate it p now) ∧
    (applyUpdate it p now).inventoryId = it.inventoryId := by
  constructor
  · simp [updateItem, hv, hs, hit, hown]
  · simp [applyUpdate, h]

/-- Witness for the amended C3: an update of `baseItem` with the all-absent
patch keeps `INV-001`. -/
theorem c3_amended_witness :
    updateItem [baseItem] "u1" "d1" emptyPatch 5 =
      .ok (applyUpdate baseItem emptyPatch 5) ∧
    (applyUpdate baseItem emptyPatch 5).inventoryId = baseItem.inventoryId :=
  c3_amended_update_preserves_displayId_when_absent [baseItem] "u1" "d1"
    emptyPatch 5 rfl rfl rfl baseItem (by decide) rfl

/-- A create request body, as seen by the route's validation chain. -/
structure CreateReq where
  productName : Option String
  category : Option String
  supplier : Option String
  stock : Option String
  costUnit : Option Rat
  warehouse : Option String
deriving DecidableEq

/-- express-validator `check(field).not().isEmpty()`: the check fails when
the field is missing or is the empty string. -/
def checkNonEmptyFails : Option String → Bool
  | none => true
  | some s => s = ""

/-- express-validator `check('costUnit').isFloat({ min: 0 })`: the check
fails when the field is missing or its numeric value is below 0 — a value
of exactly 0 passes. -/
def checkCostUnitFails : Option Rat → Bool
  | none => true
  | some c => c < 0

/-- The validation chain of `router.post('/')`: the error messages of the
five checks, accumulated in declaration order; the empty list means the
request proceeds to creation. -/
def validateCreate (r : CreateReq) : List String :=
  (if checkNonEmptyFails r.productName then ["Product name is required"] else []) ++
  (if checkNonEmptyFails r.category then ["Category is required"] else []) ++
  (if checkNonEmptyFails r.supplier then ["Supplier is required"] else []) ++
  (if checkCostUnitFails r.costUnit then ["Cost per unit must be a positive number"] else []) ++
  (if checkNonEmptyFails r.warehouse then ["Warehouse is required"] else [])

/-- The `costUnit` constraint of `InventorySchema`: `min: 0, max: 1000000`
(applied at save time). -/
def schemaCostOk (c : Rat) : Bool :=
  0 ≤ c && c ≤ 1000000

/-- The create form state of `CreateItem.js` relevant to validation; the
`costUnit` input is `none` for the empty string, `some v` for a string
parsing to `v` (the radio/select fields cannot fail validation). -/
structure FormData where
  productName : String
  supplier : String
  costUnit : Option Rat
  warehouse : String
deriving DecidableEq

/-- `validateForm` from `CreateItem.js`: field-name/message pairs; the
cost check fails on a missing value or a parsed value ≤ 0. -/
def validateForm (f : FormData) : List (String × String) :=
  (if strTrim f.productName = "" then [("productName", "Product name is required")]
   else if 100 < f.productName.length then
     [("productName", "Product name cannot exceed 100 characters")]
   else []) ++
  (if strTrim f.supplier = "" then [("supplier", "Supplier is required")]
   else if 100 < f.supplier.length then
     [("supplier", "Supplier name cannot exceed 100 characters")]
   else []) ++
  (match f.costUnit with
   | none => [("costUnit", "Valid cost is required (must be greater than 0)")]
   | some c =>
     if c ≤ 0 then [("costUnit", "Valid cost is required (must be greater than 0)")]
     else if 1000000 < c then [("costUnit", "Cost cannot exceed $1,000,000")]
     else []) ++
  (if strTrim f.warehouse = "" then [("warehouse", "Warehouse is required")]
   else if 20 < f.warehouse.length then
     [("warehouse", "Warehouse code cannot exceed 20 characters")]
   else [])

/-- A create request that is valid except that `costUnit` is exactly 0. -/
def zeroCostReq : CreateReq :=
  ⟨some "Desk", some "Furniture", some "Acme", some "In stock", some 0, some "WH-1"⟩

/-- The same submission as seen by the client-side form. -/
def zeroCostForm : FormData := ⟨"Desk", "Acme", some 0, "WH-1"⟩

/-- C5: at the failing input — a create request whose other fields are
valid and whose `costUnit` is 0 — the server-side validation chain returns
no error at all (`isFloat({min: 0})` accepts 0, despite its own message
reading "must be a positive number"), and the persistence-layer constraint
(`min: 0`) accepts it too, so the item is persisted; only the client-side
form validation rejects the zero. -/
theorem c5_zero_cost_passes_server_validation :
    validateCreate zeroCostReq = [] ∧
    schemaCostOk 0 = true ∧
    validateForm zeroCostForm =
      [("costUnit", "Valid cost is required (must be greater than 0)")] := by
  refine ⟨by decide, by decide, by decide⟩

/-- `router.get('/:id')`: `findOne({_id: id, userId: caller})` — a single
query filtering on both the document id and the owner; a miss (nonexistent
id or an id owned by someone else) is answered with 404 Not Found. -/
def getById (store : Store) (caller docId : String) : Except ApiErr Item :=
  match store.find? (fun it => it.docId = docId && it.userId = caller) with
  | some it => .ok it
  | none => .error .notFound

theorem eq_of_mem_of_uniq_docId {store : Store}
    (huniq : store.Pairwise (fun a b => a.docId ≠ b.docId)) {x y : Item}
    (hx : x ∈ store) (hy : y ∈ store) (h : x.docId = y.docId) : x = y := by
  induction store with
  | nil => cases hx
  | cons a l ih =>
    rcases List.pairwise_cons.mp huniq with ⟨ha, hl⟩
    rcases List.mem_cons.mp hx with hx1 | hx1 <;>
      rcases List.mem_cons.mp hy with hy1 | hy1
    · exact hx1.trans hy1.symm
    · exact absurd (hx1 ▸ h) (ha y hy1)
    · exact absurd (hy1 ▸ h.symm) (ha x hx1)
    · exact ih hl hx1 hy1

theorem getById_ok_of_owned {store : Store} {caller docId : String}
    (huniq : store.Pairwise (fun a b => a.docId ≠ b.docId)) {it : Item}
    (hmem : it ∈ store) (hid : it.docId = docId) (hown : it.userId = caller) :
    getById store caller docId = .ok it := by
  induction store with
  | nil => cases hmem
  | cons a l ih =>
    rcases List.pairwise_cons.mp huniq with ⟨ha, hl⟩
    rcases List.mem_cons.mp hmem with h1 | h1
    · subst h1
      simp [getById, List.find?_cons, hid, hown]
    · have hne : a.docId ≠ docId := fun hc => ha it h1 (hc.trans hid.symm)
      have := ih hl h1
      simp only [getById] at this ⊢
      rw [List.find?_cons]
      simp [hne]
      exact this

/-- C7: `getById` answers with the item exactly when it exists under the
caller's ownership; an existing item owned by a different caller, like a
nonexistent one, is answered with NotFound — never Forbidden — so the two
cases are indistinguishable to the caller. (Stated for stores with unique
document ids, which the store's primary key guarantees.) -/
theorem c7_getById_notFound_never_forbidden (store : Store)
    (caller docId : String)
    (huniq : store.Pairwise (fun a b => a.docId ≠ b.docId)) :
    (∀ it ∈ store, it.docId = docId → it.userId = caller →
      getById store caller docId = .ok it) ∧
    (∀ it ∈ store, it.docId = docId → it.userId ≠ caller →
      getById store caller docId = .error .notFound) ∧
    ((∀ it ∈ store, it.docId ≠ docId) →
      getById store caller docId = .error .notFound) ∧
    (∀ e, getById store caller docId = .error e → e = .notFound) ∧
    (∀ it, getById store caller docId = .ok it →
      it ∈ store ∧ it.docId = docId ∧ it.userId = caller) := by
  refine ⟨?_, ?_, ?_, ?_, ?_⟩
  · intro it hmem hid hown
    exact getById_ok_of_owned huniq hmem hid hown
  · intro it hmem hid hown
    have hnone : store.find?
        (fun x => x.docId = docId && x.userId = caller) = none := by
      rw [List.find?_eq_none]
      intro x hx hpx
      simp only [Bool.and_eq_true, decide_eq_true_eq] at hpx
      have hxit : x = it := eq_of_mem_of_uniq_docId huniq hx hmem
        (hpx.1.trans hid.symm)
      exact hown (hxit ▸ hpx.2)
    simp [getById, hnone]
  · intro hall
    have hnone : store.find?
        (fun x => x.docId = docId && x.userId = caller) = none := by
      rw [List.find?_eq_none]
      intro x hx hpx
      simp only [Bool.and_eq_true, decide_eq_true_eq] at hpx
      exact hall x hx hpx.1
    simp [getById, hnone]
  · intro e he
    unfold getById at he
    rcases hfind : store.find?
        (fun it => it.docId = docId && it.userId = caller) with _ | it <;>
      rw [hfind] at he
    · cases he; rfl
    · cases he
  · intro it hok
    unfold getById at hok
    rcases hfind : store.find?
        (fun x => x.docId = docId && x.userId = caller) with _ | a <;>
      rw [hfind] at hok
    · cases hok
    · cases hok
      have hp := List.find?_some hfind
      simp only [Bool.and_eq_true, decide_eq_true_eq] at hp
      exact ⟨List.mem_of_find?_eq_some hfind, hp.1, hp.2⟩

/-- An item owned by `alice`, used to witness C7 for a different caller. -/
def aliceItem : Item :=
  { docId := "d9", inventoryId := "INV-001", productName := "Chair",
    category := "Furniture", supplier := "Acme", stock := "In stock",
    costUnit := 30, warehouse := "WH-2", lastUpdated := 0, userId := "alice" }

/-- Witness for C7: `bob` requesting `alice`'s existing item `d9` gets
NotFound, and the answer is never Forbidden. -/
theorem c7_getById_witness :
    getById [aliceItem] "bob" "d9" = .error .notFound ∧
    (∀ e, getById [aliceItem] "bob" "d9" = .error e → e = .notFound) :=
  ⟨(c7_getById_notFound_never_forbidden [aliceItem] "bob" "d9"
      (List.pairwise_singleton _ _)).2.1 aliceItem (List.mem_singleton.mpr rfl)
      rfl (by decide),
   (c7_getById_notFound_never_forbidden [aliceItem] "bob" "d9"
      (List.pairwise_singleton _ _)).2.2.2.1⟩

/-- `countDocuments({userId})` in the stats route: the number of all the
owner's items. `countDocuments` is a query operation, so Mongoose casts
the string `req.user.id` to the schema's ObjectId type before comparing;
the comparison is therefore equality on the id itself. -/
def statsTotalItems (store : Store) (u : String) : Nat :=
  (store.filter (fun it => it.userId = u)).length

/-- A BSON value as compared inside MongoDB: the schema stores `userId` as
an ObjectId, while the route code supplies plain strings (`req.user.id`,
compared elsewhere via `item.userId.toString()`). Query operations are
cast against the schema; aggregation pipelines are not. -/
inductive Bson where
  | oid (hex : String)
  | str (s : String)
deriving DecidableEq

/-- The stored BSON value of an item's `userId` field: an ObjectId whose
hex digits are the string the cast query paths of this model compare. -/
def itemUserIdBson (it : Item) : Bson :=
  .oid it.userId

/-- The `userId` value of the stats aggregation's `$match` stage: Mongoose
does not cast pipelines, so `req.user.id` enters as a plain string. -/
def aggUserIdLiteral (u : String) : Bson :=
  .str u

/-- The documents matched by the stats aggregation
`$match: { userId: req.user.id, stock: 'In stock' }`, with the uncast
string-versus-ObjectId comparison on `userId`. -/
def aggInStockMatch (store : Store) (u : String) : Store :=
  store.filter (fun it => itemUserIdBson it = aggUserIdLiteral u &&
    it.stock = "In stock")

/-- The `totalValue` reported by `router.get('/stats/summary')`: the
aggregation sums `costUnit` over the `$match`ed documents; an empty
aggregation result is reported as 0
(`totalValue.length > 0 ? totalValue[0].total : 0`). -/
def statsTotalValue (store : Store) (u : String) : Rat :=
  if (aggInStockMatch store u).isEmpty then 0
  else ((aggInStockMatch store u).map (fun it => it.costUnit)).sum

/-- An in-stock item costing 10.00 for the C9 example. -/
def lampItem : Item :=
  { docId := "s1", inventoryId := "INV-001", productName := "Lamp",
    category := "Office", supplier := "Acme", stock := "In stock",
    costUnit := 10, warehouse := "WH-1", lastUpdated := 0, userId := "u1" }

/-- An out-of-stock item costing 5.00 for the C9 example. -/
def fanItem : Item :=
  { docId := "s2", inventoryId := "INV-002", productName := "Fan",
    category := "Office", supplier := "Acme", stock := "Out of stock",
    costUnit := 5, warehouse := "WH-1", lastUpdated := 1, userId := "u1" }

/-- The C9 example store: owner u1 with one in-stock item costing 10.00 and
one out-of-stock item costing 5.00. -/
def statsStore : Store := [lampItem, fanItem]

theorem aggInStockMatch_eq_nil (store : Store) (u : String) :
    aggInStockMatch store u = [] := by
  unfold aggInStockMatch
  refine List.filter_eq_nil_iff.mpr fun it _ => ?_
  simp [itemUserIdBson, aggUserIdLiteral]

/-- C9: the stats route's aggregation `$match` is not cast, so its
string-versus-ObjectId `userId` comparison matches no document and the
reported `totalValueInStock` is 0 for every store and owner;
`totalItems` (a cast query) is the count of the owner's items. At the
claim's example — one InStock item at 10.00 and one OutOfStock item at
5.00 — the endpoint reports `totalItems` 2 but `totalValueInStock` 0,
although the owner's in-stock sum is 10. -/
theorem c9_agg_type_mismatch_total_value_zero :
    (∀ (store : Store) (u : String), statsTotalValue store u = 0) ∧
    statsTotalItems statsStore "u1" = 2 ∧
    statsTotalValue statsStore "u1" = 0 ∧
    ((statsStore.filter (fun it => it.userId = "u1" && it.stock = "In stock")).map
      (fun it => it.costUnit)).sum = 10 := by
  have hz : ∀ (store : Store) (u : String), statsTotalValue store u = 0 := by
    intro store u
    unfold statsTotalValue
    rw [aggInStockMatch_eq_nil]
    rfl
  refine ⟨hz, by decide, hz statsStore "u1", ?_⟩
  rw [show statsStore.filter
      (fun it => it.userId = "u1" && it.stock = "In stock") = [lampItem] from
    by decide]
  simp [lampItem]

/-- One character of a MongoDB `$regex` pattern, on the fragment the search
route can receive here: a literal character or the `.` wildcard. -/
inductive PChar where
  | lit (c : Char)
  | dot
deriving DecidableEq

/-- Whether one pattern character matches one subject character. -/
def pcharMatches : PChar → Char → Bool
  | .lit c, t => c = t
  | .dot, _ => true

/-- Anchored match of a pattern against the front of the subject. -/
def matchAt : List PChar → List Char → Bool
  | [], _ => true
  | _ :: _, [] => false
  | p :: ps, c :: cs => pcharMatches p c && matchAt ps cs

/-- Unanchored regex search: try an anchored match at every position. -/
def regexSearch : List PChar → List Char → Bool
  | pat, [] => matchAt pat []
  | pat, c :: cs => matchAt pat (c :: cs) || regexSearch pat cs

/-- Compile the query string into a pattern, folding in the `i` option by
lowering literal characters: `.` is the wildcard, everything else a
literal. -/
def compilePat (q : String) : List PChar :=
  q.data.map (fun c => if c = '.' then PChar.dot else PChar.lit c.toLower)

/-- `{ $regex: q, $options: 'i' }` against field `s`, on the pattern
fragment of literals and the `.` wildcard. -/
def regexMatchCI (q s : String) : Bool :=
  regexSearch (compilePat q) (s.data.map Char.toLower)

/-- The `$or` filter of `router.get('/search')`: the query pattern matched
against `productName`, `category`, `supplier` and `inventoryId`. -/
def searchMatches (q : String) (it : Item) : Bool :=
  regexMatchCI q it.productName || regexMatchCI q it.category ||
  regexMatchCI q it.supplier || regexMatchCI q it.inventoryId

/-- The sort key of the search route: `lastUpdated` descending. -/
def newerFirst (a b : Item) : Prop :=
  b.lastUpdated ≤ a.lastUpdated

instance : DecidableRel newerFirst :=
  fun _ _ => Nat.decLe _ _

instance : IsTotal Item newerFirst :=
  ⟨fun a b => Nat.le_total b.lastUpdated a.lastUpdated⟩

instance : IsTrans Item newerFirst :=
  ⟨fun _ _ _ hab hbc => Nat.le_trans hbc hab⟩

/-- `router.get('/search')`: reject a missing/empty/whitespace-only query
(`!q || q.trim() === ''`) with 400, otherwise return the caller's items
matching the `$or` regex filter, sorted by `lastUpdated` descending. -/
def searchItems (store : Store) (caller q : String) : Except ApiErr (List Item) :=
  if q = "" ∨ strTrim q = "" then .error .invalidArgument
  else .ok (List.insertionSort newerFirst
    (store.filter (fun it => it.userId = caller && searchMatches q it)))

/-- The specification's matching relation (`search(ownerId, query)`:
case-insensitive substring match): `q` occurs inside `s` up to case. -/
def containsCISpec (q s : String) : Prop :=
  (q.data.map Char.toLower) <:+: (s.data.map Char.toLower)

instance (q s : String) : Decidable (containsCISpec q s) := by
  unfold containsCISpec
  infer_instance

/-- The specification's search predicate as a Boolean: the item belongs to
the caller and some searched field contains the query as a
case-insensitive substring. -/
def specSearchPred (caller q : String) (it : Item) : Bool :=
  decide (it.userId = caller ∧ (containsCISpec q it.productName ∨
    containsCISpec q it.category ∨ containsCISpec q it.supplier ∨
    containsCISpec q it.inventoryId))

/-- The regular-expression metacharacters of the `$regex` dialect: a query
containing none of them is matched purely literally. -/
def regexMetachars : List Char :=
  ['.', '^', '$', '*', '+', '?', '(', ')', '[', ']', '\x7b', '\x7d', '|', '\\']

/-- Whether a query character is a regex metacharacter. -/
def isRegexMeta (c : Char) : Bool :=
  regexMetachars.contains c

theorem strTrim_empty : strTrim "" = "" := rfl

theorem matchAt_lits (ps : List Char) :
    ∀ s : List Char, matchAt (ps.map PChar.lit) s = true ↔ ps <+: s := by
  induction ps with
  | nil => intro s; simp [matchAt]
  | cons p ps ih =>
    intro s
    cases s with
    | nil => simp [matchAt]
    | cons c cs => simp [matchAt, pcharMatches, ih, List.cons_prefix_cons]

theorem regexSearch_iff_exists (pat : List PChar) :
    ∀ s : List Char, regexSearch pat s = true ↔
      ∃ t, t <:+ s ∧ matchAt pat t = true := by
  intro s
  induction s with
  | nil => simp [regexSearch]
  | cons c cs ih =>
    rw [regexSearch, Bool.or_eq_true, ih]
    constructor
    · rintro (h | ⟨t, ht, hm⟩)
      · exact ⟨c :: cs, List.suffix_refl _, h⟩
      · exact ⟨t, List.suffix_cons_iff.mpr (Or.inr ht), hm⟩
    · rintro ⟨t, ht, hm⟩
      rcases List.suffix_cons_iff.mp ht with h1 | h1
      · subst h1; exact Or.inl hm
      · exact Or.inr ⟨t, h1, hm⟩

theorem regexSearch_lits (ps s : List Char) :
    regexSearch (ps.map PChar.lit) s = true ↔ ps <:+: s := by
  rw [regexSearch_iff_exists, List.infix_iff_prefix_suffix]
  constructor
  · rintro ⟨t, ht, hm⟩
    exact ⟨t, (matchAt_lits ps t).mp hm, ht⟩
  · rintro ⟨t, hp, hs⟩
    exact ⟨t, hs, (matchAt_lits ps t).mpr hp⟩

theorem compilePat_all_lit {q : String} (h : ∀ c ∈ q.data, c ≠ '.') :
    compilePat q = (q.data.map Char.toLower).map PChar.lit := by
  unfold compilePat
  rw [List.map_map]
  exact List.map_congr_left fun c hc => by simp [Function.comp, h c hc]

theorem regexMatchCI_iff_contains {q : String} (h : ∀ c ∈ q.data, c ≠ '.')
    (s : String) : regexMatchCI q s = true ↔ containsCISpec q s := by
  unfold regexMatchCI containsCISpec
  rw [compilePat_all_lit h, regexSearch_lits]

theorem searchMatches_eq_spec {caller q : String} (h : ∀ c ∈ q.data, c ≠ '.')
    (it : Item) :
    (decide (it.userId = caller) && searchMatches q it) =
      specSearchPred caller q it := by
  rw [Bool.eq_iff_iff]
  simp only [Bool.and_eq_true, decide_eq_true_eq, searchMatches,
    Bool.or_eq_true, specSearchPred, regexMatchCI_iff_contains h]
  tauto

/-- An item whose searched fields contain no `.` character. -/
def plainItem : Item :=
  { docId := "p1", inventoryId := "INV-001", productName := "Abc",
    category := "Audio", supplier := "Acme", stock := "In stock",
    costUnit := 1, warehouse := "WH-1", lastUpdated := 0, userId := "u1" }

theorem lexLeB_cons_iff (a b : Char) (as bs : List Char) :
    lexLeB (a :: as) (b :: bs) = true ↔
      a.toNat < b.toNat ∨ (a.toNat = b.toNat ∧ lexLeB as bs = true) := by
  rw [lexLeB]
  by_cases h1 : a.toNat < b.toNat
  · rw [if_pos h1]
    simp [h1]
  · rw [if_neg h1]
    by_cases h2 : b.toNat < a.toNat
    · rw [if_pos h2]
      simp only [Bool.false_eq_true, false_iff]
      rintro (h | ⟨h, _⟩) <;> omega
    · rw [if_neg h2]
      have heq : a.toNat = b.toNat := by omega
      constructor
      · intro h; exact Or.inr ⟨heq, h⟩
      · rintro (h | ⟨_, h⟩)
        · exact absurd h h1
        · exact h

theorem lexLeB_refl (l : List Char) : lexLeB l l = true := by
  induction l with
  | nil => rfl
  | cons a as ih => exact (lexLeB_cons_iff a a as as).mpr (Or.inr ⟨rfl, ih⟩)

theorem lexLeB_total (l₁ : List Char) :
    ∀ l₂, lexLeB l₁ l₂ = true ∨ lexLeB l₂ l₁ = true := by
  induction l₁ with
  | nil => intro l₂; left; rfl
  | cons a as ih =>
    intro l₂
    cases l₂ with
    | nil => right; rfl
    | cons b bs =>
      rcases Nat.lt_trichotomy a.toNat b.toNat with h | h | h
      · exact Or.inl ((lexLeB_cons_iff a b as bs).mpr (Or.inl h))
      · rcases ih bs with h2 | h2
        · exact Or.inl ((lexLeB_cons_iff a b as bs).mpr (Or.inr ⟨h, h2⟩))
        · exact Or.inr ((lexLeB_cons_iff b a bs as).mpr (Or.inr ⟨h.symm, h2⟩))
      · exact Or.inr ((lexLeB_cons_iff b a bs as).mpr (Or.inl h))

theorem lexLeB_trans (l₁ : List Char) :
    ∀ l₂ l₃, lexLeB l₁ l₂ = true → lexLeB l₂ l₃ = true →
      lexLeB l₁ l₃ = true := by
  induction l₁ with
  | nil => intro l₂ l₃ _ _; rfl
  | cons a as ih =>
    intro l₂ l₃ h1 h2
    cases l₂ with
    | nil => simp [lexLeB] at h1
    | cons b bs =>
      cases l₃ with
      | nil => simp [lexLeB] at h2
      | cons c cs =>
        rcases (lexLeB_cons_iff a b as bs).mp h1 with hab | ⟨hab, hr1⟩ <;>
          rcases (lexLeB_cons_iff b c bs cs).mp h2 with hbc | ⟨hbc, hr2⟩
        · exact (lexLeB_cons_iff a c as cs).mpr (Or.inl (by omega))
        · exact (lexLeB_cons_iff a c as cs).mpr (Or.inl (by omega))
        · exact (lexLeB_cons_iff a c as cs).mpr (Or.inl (by omega))
        · exact (lexLeB_cons_iff a c as cs).mpr
            (Or.inr ⟨by omega, ih bs cs hr1 hr2⟩)

theorem lexLeB_antisymm (l₁ : List Char) :
    ∀ l₂, lexLeB l₁ l₂ = true → lexLeB l₂ l₁ = true → l₁ = l₂ := by
  induction l₁ with
  | nil =>
    intro l₂ h1 h2
    cases l₂ with
    | nil => rfl
    | cons b bs => simp [lexLeB] at h2
  | cons a as ih =>
    intro l₂ h1 h2
    cases l₂ with
    | nil => simp [lexLeB] at h1
    | cons b bs =>
      rcases (lexLeB_cons_iff a b as bs).mp h1 with hab | ⟨hab, hr1⟩ <;>
        rcases (lexLeB_cons_iff b a bs as).mp h2 with hba | ⟨hba, hr2⟩
      · omega
      · omega
      · omega
      · have hc : a = b := by
          have := congrArg Char.ofNat hab
          rwa [Char.ofNat_toNat, Char.ofNat_toNat] at this
        rw [hc, ih bs hr1 hr2]

theorem strLeB_refl (s : String) : strLeB s s = true :=
  lexLeB_refl s.data

theorem strLeB_total (s t : String) :
    strLeB s t = true ∨ strLeB t s = true :=
  lexLeB_total s.data t.data

theorem strLeB_trans {s t v : String} (h1 : strLeB s t = true)
    (h2 : strLeB t v = true) : strLeB s v = true :=
  lexLeB_trans s.data t.data v.data h1 h2

theorem strLeB_antisymm {s t : String} (h1 : strLeB s t = true)
    (h2 : strLeB t s = true) : s = t := by
  have h3 := lexLeB_antisymm s.data t.data h1 h2
  cases s with
  | mk d1 => cases t with
    | mk d2 => exact congrArg String.mk h3

theorem foldl_maxStep_mem (xs : List String) :
    ∀ x, xs.foldl maxStep x = x ∨ xs.foldl maxStep x ∈ xs := by
  induction xs with
  | nil => intro x; exact Or.inl rfl
  | cons y ys ih =>
    intro x
    rw [List.foldl_cons]
    rcases ih (maxStep x y) with h | h
    · by_cases hle : strLeB x y = true
      · right
        rw [h]
        unfold maxStep
        rw [if_pos hle]
        exact List.mem_cons_self y ys
      · left
        rw [h]
        unfold maxStep
        rw [if_neg hle]
    · right
      exact List.mem_cons_of_mem y h

theorem strLeB_foldl_maxStep (xs : List String) :
    ∀ x, strLeB x (xs.foldl maxStep x) = true := by
  induction xs with
  | nil => intro x; exact strLeB_refl x
  | cons y ys ih =>
    intro x
    rw [List.foldl_cons]
    refine strLeB_trans ?_ (ih (maxStep x y))
    unfold maxStep
    by_cases hle : strLeB x y = true
    · rw [if_pos hle]; exact hle
    · rw [if_neg hle]; exact strLeB_refl x

theorem mem_strLeB_foldl_maxStep (xs : List String) :
    ∀ x, ∀ y ∈ xs, strLeB y (xs.foldl maxStep x) = true := by
  induction xs with
  | nil => intro x y hy; cases hy
  | cons z zs ih =>
    intro x y hy
    rw [List.foldl_cons]
    rcases List.mem_cons.mp hy with h | h
    · subst h
      refine strLeB_trans ?_ (strLeB_foldl_maxStep zs (maxStep x y))
      unfold maxStep
      by_cases hle : strLeB x y = true
      · rw [if_pos hle]; exact strLeB_refl y
      · rw [if_neg hle]
        rcases strLeB_total y x with h2 | h2
        · exact h2
        · exact absurd h2 hle
    · exact ih (maxStep x z) y h

theorem maxId_eq_of_ub {l : List String} {x : String} (hx : x ∈ l)
    (hub : ∀ y ∈ l, strLeB y x = true) : maxId l = some x := by
  cases l with
  | nil => cases hx
  | cons a xs =>
    show some (xs.foldl maxStep a) = some x
    congr 1
    have hle1 : strLeB (xs.foldl maxStep a) x = true := by
      rcases foldl_maxStep_mem xs a with h | h
      · rw [h]; exact hub a (List.mem_cons_self a xs)
      · exact hub _ (List.mem_cons_of_mem a h)
    have hle2 : strLeB x (xs.foldl maxStep a) = true := by
      rcases List.mem_cons.mp hx with h | h
      · rw [h]; exact strLeB_foldl_maxStep xs a
      · exact mem_strLeB_foldl_maxStep xs a x h
    exact strLeB_antisymm hle1 hle2

/-- C10: the generator picks the owner's maximum existing display
identifier by descending string (lexicographic) order, which disagrees with
numeric order above 999: whenever the owner's stored identifiers include
both INV-999 and INV-1000 and nothing lexicographically greater than
INV-999, the next sequential generation returns INV-1000 — an identifier
that owner already has. -/
theorem c10_lex_max_regenerates_inv1000 (store : Store) (u : String)
    (h999 : "INV-999" ∈ ownerIds store u)
    (h1000 : "INV-1000" ∈ ownerIds store u)
    (hub : ∀ s ∈ ownerIds store u, strLeB s "INV-999" = true) :
    generateInventoryId store u = "INV-1000" ∧
    "INV-1000" ∈ ownerIds store u := by
  have hmax : maxId (ownerIds store u) = some "INV-999" :=
    maxId_eq_of_ub h999 hub
  have hnum : generateInventoryIdNum store u = 1000 := by
    unfold generateInventoryIdNum
    rw [hmax]
    decide
  refine ⟨?_, h1000⟩
  unfold generateInventoryId
  rw [hnum]
  decide

/-- An item with display identifier INV-999. -/
def inv999Item : Item :=
  { docId := "x1", inventoryId := "INV-999", productName := "Cam",
    category := "Electronics", supplier := "Acme", stock := "In stock",
    costUnit := 2, warehouse := "WH-1", lastUpdated := 0, userId := "u1" }

/-- An item with display identifier INV-1000. -/
def inv1000Item : Item :=
  { docId := "x2", inventoryId := "INV-1000", productName := "Mic",
    category := "Audio", supplier := "Acme", stock := "In stock",
    costUnit := 3, warehouse := "WH-1", lastUpdated := 1, userId := "u1" }

/-- The store holding both INV-999 and INV-1000 for the same owner. -/
def lexStore : Store := [inv999Item, inv1000Item]

/-- Witness for C10 on the concrete two-item store: generation returns
INV-1000, which the owner already holds. -/
theorem c10_lex_max_witness :
    generateInventoryId lexStore "u1" = "INV-1000" ∧
    "INV-1000" ∈ ownerIds lexStore "u1" :=
  c10_lex_max_regenerates_inv1000 lexStore "u1" (by decide) (by decide)
    (by decide)
